import Mathlib

/-!
Verification development for the iso-compliance-api backend.

The Python source (FastAPI routers over SQLAlchemy entities) is shallowly
embedded below: each relational entity becomes a structure, the database
becomes explicit lists of rows, every router handler becomes a pure function
from the database state (plus the authenticated organization id) to an
`Except`-style result, and timestamps become integer minutes since an epoch.
SQL filtering/aggregation is embedded as list filtering/counting with SQL
NULL-comparison semantics made explicit.
-/

/-! ## Time values

Python `datetime` values are modelled at minute resolution: a wall-clock
reading (minutes since epoch as displayed) plus an optional timezone offset
in minutes east of UTC (`none` models a naive datetime). Subtraction of two
aware datetimes compares instants (`wall - offset`); `timedelta.days` floors
towards negative infinity, which is `Int.fdiv` by 1440. -/

namespace IsoApi

structure PyDateTime where
  wall : Int
  tz : Option Int
deriving DecidableEq, Repr

def PyDateTime.instant (d : PyDateTime) : Int := d.wall - d.tz.getD 0

def minutesPerDay : Int := 1440

/-! ## Enumerations (app/models) -/

inductive TaskStatus
  | todo
  | in_progress
  | review
  | done
deriving DecidableEq, Repr

inductive TaskPriority
  | low
  | medium
  | high
  | urgent
deriving DecidableEq, Repr

inductive ControlStatus
  | not_started
  | in_progress
  | review_pending
  | completed
  | not_applicable
deriving DecidableEq, Repr

/-! ## Entities (app/models)

Rows are embedded with their scalar columns. The server-managed
`created_at`/`updated_at` timestamp columns are omitted: no claim under
verification mentions them. An `OrganizationControl` carries its joined
`Control` row directly, matching the ORM objects the routers actually
operate on (`selectinload(OrganizationControl.control)`). -/

structure Organization where
  id : String
  name : String
  profile_type : String
deriving DecidableEq, Repr

structure User where
  id : String
  email : String
  name : Option String
  password_hash : String
  role : String
  organization_id : String
deriving DecidableEq, Repr

structure Control where
  id : String
  control_id : String
  name_en : String
  name_ko : String
  description_en : Option String
  description_ko : Option String
  category : String
  category_name_en : String
  category_name_ko : String
deriving DecidableEq, Repr

structure OrganizationControl where
  id : String
  organization_id : String
  control_id : String
  status : ControlStatus
  is_applicable : Bool
  notes : Option String
  control : Control
deriving DecidableEq, Repr

structure Task where
  id : String
  organization_id : String
  title : String
  description : Option String
  status : TaskStatus
  priority : TaskPriority
  due_date : Option PyDateTime
  recurring_rule : Option String
  control_id : Option String
  assignee_id : Option String
deriving DecidableEq, Repr

structure Document where
  id : String
  organization_id : String
  name : String
  description : Option String
  file_key : String
  file_size : Int
  mime_type : String
  version : Int
  expires_at : Option PyDateTime
  control_id : Option String
  task_id : Option String
  uploaded_by_id : String
deriving DecidableEq, Repr

/-- The relational store: one list of rows per table. -/
structure DBState where
  organizations : List Organization
  users : List User
  orgControls : List OrganizationControl
  tasks : List Task
  documents : List Document
deriving DecidableEq, Repr

/-- A FastAPI `HTTPException`: status code plus detail message. -/
structure HTTPError where
  status_code : Nat
  detail : String
deriving DecidableEq, Repr

/-! ## SQL helpers -/

/-- `x < bound` under SQL semantics for a nullable column: NULL compares
to nothing, so a NULL value is excluded. -/
def sqlLt (x : Option PyDateTime) (bound : Int) : Bool :=
  match x with
  | none => false
  | some d => decide (d.instant < bound)

/-- `x <= bound` under SQL semantics for a nullable column. -/
def sqlLe (x : Option PyDateTime) (bound : Int) : Bool :=
  match x with
  | none => false
  | some d => decide (d.instant ≤ bound)

/-- Embeds `SUM(IF(cond, 1, 0))`. -/
def sumIf (p : α → Bool) (l : List α) : Nat :=
  (l.map (fun x => if p x then 1 else 0)).sum

/-- Character-list version of "starts with". -/
def startsList : List Char → List Char → Bool
  | _, [] => true
  | [], _ :: _ => false
  | a :: as, b :: bs => a == b && startsList as bs

/-- `hasSubList h n`: `n` occurs as a contiguous run inside `h`. -/
def hasSubList : List Char → List Char → Bool
  | h, n =>
    match h with
    | [] => n.isEmpty
    | _ :: t => startsList h n || hasSubList t n

/-- SQL `col ILIKE '%pat%'`: case-insensitive substring match. -/
def ilikeSub (col : String) (pat : String) : Bool :=
  hasSubList col.toLower.data pat.toLower.data

/-- SQL `col ILIKE '%pat%'` on a nullable column: NULL matches nothing. -/
def ilikeSubOpt (col : Option String) (pat : String) : Bool :=
  match col with
  | none => false
  | some s => ilikeSub s pat

/-! ## D-day (app/routers/tasks.py, `calculate_dday`)

The current instant is passed explicitly (the source reads
`datetime.now(timezone.utc)`, hence offset 0). A naive due date gets
`tzinfo=timezone.utc` attached (wall clock reinterpreted as UTC);
`replace(hour=0, minute=0, second=0, microsecond=0)` zeroes the wall
time-of-day KEEPING the value's own tzinfo, and `(a - b).days` on aware
values subtracts instants and floors to whole days. -/

def calculate_dday (due_date : Option PyDateTime) (now : Int) : Option String × Bool :=
  match due_date with
  | none => (none, false)
  | some d0 =>
    let due : PyDateTime := if d0.tz = none then { d0 with tz := some 0 } else d0
    let now_date : Int := minutesPerDay * (Int.fdiv now minutesPerDay)
    let due_date_only : PyDateTime :=
      { due with wall := minutesPerDay * (Int.fdiv due.wall minutesPerDay) }
    let diff : Int := Int.fdiv (due_date_only.instant - now_date) minutesPerDay
    if diff = 0 then (some "D-Day", false)
    else if diff > 0 then (some ("D-" ++ toString diff), false)
    else (some ("D+" ++ toString (-diff)), true)

/-- Modelled from the spec (§4.3, D-day algorithm), as a comparison point for
`calculate_dday`: treat a due timestamp as UTC when it carries no zone,
truncate both the due instant and the current instant to UTC calendar days,
and emit the label and overdue flag from the day difference. -/
def calculate_dday_from_spec (due_date : Option PyDateTime) (now : Int) :
    Option String × Bool :=
  match due_date with
  | none => (none, false)
  | some d =>
    let diff : Int := Int.fdiv d.instant minutesPerDay - Int.fdiv now minutesPerDay
    if diff = 0 then (some "D-Day", false)
    else if diff > 0 then (some ("D-" ++ toString diff), false)
    else (some ("D+" ++ toString (-diff)), true)

/-! ## Scoped CRUD (app/routers/{tasks,controls,documents}.py)

Every handler first runs a SELECT with BOTH the path id and the
organization id from the authenticated context in the WHERE clause
(`scalar_one_or_none`), and raises 404 when nothing matches. Row ids are
primary keys, so at most one row matches; `List.find?` embeds the lookup,
`List.eraseP` embeds deleting the loaded object, and replace-first embeds
mutating the loaded object in place. -/

def taskNotFound : HTTPError := ⟨404, "Task not found"⟩

def controlNotFound : HTTPError := ⟨404, "Control not found"⟩

def documentNotFound : HTTPError := ⟨404, "Document not found"⟩

/-- Replace the first element satisfying `p` (the session's identity map
holds one object per primary key; `setattr` mutates that object). -/
def replaceFirst (p : α → Bool) (x : α) : List α → List α
  | [] => []
  | a :: l => if p a then x :: l else a :: replaceFirst p x l

def findTask (db : DBState) (orgId task_id : String) : Option Task :=
  db.tasks.find? (fun t => t.id == task_id && t.organization_id == orgId)

def findControl (db : DBState) (orgId control_id : String) :
    Option OrganizationControl :=
  db.orgControls.find? (fun c => c.id == control_id && c.organization_id == orgId)

def findDocument (db : DBState) (orgId document_id : String) : Option Document :=
  db.documents.find? (fun d => d.id == document_id && d.organization_id == orgId)

def get_task (db : DBState) (orgId task_id : String) : Except HTTPError Task :=
  match findTask db orgId task_id with
  | none => .error taskNotFound
  | some t => .ok t

def get_control (db : DBState) (orgId control_id : String) :
    Except HTTPError OrganizationControl :=
  match findControl db orgId control_id with
  | none => .error controlNotFound
  | some c => .ok c

def get_document (db : DBState) (orgId document_id : String) :
    Except HTTPError Document :=
  match findDocument db orgId document_id with
  | none => .error documentNotFound
  | some d => .ok d

/-- PATCH /tasks payload (app/schemas/task.py, TaskUpdate). A field is `none`
when absent from the request body (`model_dump(exclude_unset=True)` skips
it); for nullable columns the inner Option carries an explicitly supplied
null. An explicit null for the non-nullable title/status/priority columns
would abort at flush with a constraint violation and is not modelled. -/
structure TaskUpdate where
  title : Option String := none
  description : Option (Option String) := none
  status : Option TaskStatus := none
  priority : Option TaskPriority := none
  due_date : Option (Option PyDateTime) := none
  control_id : Option (Option String) := none
  assignee_id : Option (Option String) := none
  recurring_rule : Option (Option String) := none
deriving DecidableEq, Repr

/-- The `for field, value in update_data.items(): setattr(task, field, value)`
loop over `request.model_dump(exclude_unset=True)`. -/
def applyTaskUpdate (p : TaskUpdate) (t : Task) : Task :=
  { t with
    title := p.title.getD t.title
    description := p.description.getD t.description
    status := p.status.getD t.status
    priority := p.priority.getD t.priority
    due_date := p.due_date.getD t.due_date
    control_id := p.control_id.getD t.control_id
    assignee_id := p.assignee_id.getD t.assignee_id
    recurring_rule := p.recurring_rule.getD t.recurring_rule }

def update_task (db : DBState) (orgId task_id : String) (request : TaskUpdate) :
    Except HTTPError (Task × DBState) :=
  match findTask db orgId task_id with
  | none => .error taskNotFound
  | some t =>
    let t2 := applyTaskUpdate request t
    .ok (t2, { db with
      tasks := replaceFirst
        (fun u => u.id == task_id && u.organization_id == orgId) t2 db.tasks })

def delete_task (db : DBState) (orgId task_id : String) :
    Except HTTPError (String × DBState) :=
  match findTask db orgId task_id with
  | none => .error taskNotFound
  | some _ =>
    .ok ("Task deleted successfully", { db with
      tasks := db.tasks.eraseP
        (fun u => u.id == task_id && u.organization_id == orgId) })

/-- PATCH /controls payload (app/schemas/control.py, OrganizationControlUpdate). -/
structure OrganizationControlUpdate where
  status : Option ControlStatus := none
  is_applicable : Option Bool := none
  notes : Option (Option String) := none
deriving DecidableEq, Repr

def applyControlUpdate (p : OrganizationControlUpdate) (c : OrganizationControl) :
    OrganizationControl :=
  { c with
    status := p.status.getD c.status
    is_applicable := p.is_applicable.getD c.is_applicable
    notes := p.notes.getD c.notes }

def update_control (db : DBState) (orgId control_id : String)
    (request : OrganizationControlUpdate) :
    Except HTTPError (OrganizationControl × DBState) :=
  match findControl db orgId control_id with
  | none => .error controlNotFound
  | some c =>
    let c2 := applyControlUpdate request c
    .ok (c2, { db with
      orgControls := replaceFirst
        (fun u => u.id == control_id && u.organization_id == orgId) c2 db.orgControls })

/-- PATCH /documents payload (app/schemas/document.py, DocumentUpdate). -/
structure DocumentUpdate where
  name : Option String := none
  description : Option (Option String) := none
  expires_at : Option (Option PyDateTime) := none
  control_id : Option (Option String) := none
  task_id : Option (Option String) := none
deriving DecidableEq, Repr

def applyDocumentUpdate (p : DocumentUpdate) (d : Document) : Document :=
  { d with
    name := p.name.getD d.name
    description := p.description.getD d.description
    expires_at := p.expires_at.getD d.expires_at
    control_id := p.control_id.getD d.control_id
    task_id := p.task_id.getD d.task_id }

def update_document (db : DBState) (orgId document_id : String)
    (request : DocumentUpdate) : Except HTTPError (Document × DBState) :=
  match findDocument db orgId document_id with
  | none => .error documentNotFound
  | some d =>
    let d2 := applyDocumentUpdate request d
    .ok (d2, { db with
      documents := replaceFirst
        (fun u => u.id == document_id && u.organization_id == orgId) d2 db.documents })

/-- StorageService.delete_file (app/services/storage.py): the boto3
`delete_object` outcome is passed in as `blobDeleteSucceeds`; the
`except ClientError` branch logs and returns False instead of raising,
so the caller sees a Bool either way. -/
def storage_delete_file (blobDeleteSucceeds : Bool) : Bool :=
  blobDeleteSucceeds

def delete_document (db : DBState) (orgId document_id : String)
    (blobDeleteSucceeds : Bool) : Except HTTPError (String × DBState) :=
  match findDocument db orgId document_id with
  | none => .error documentNotFound
  | some _ =>
    -- the router never inspects delete_file's return value
    let _ := storage_delete_file blobDeleteSucceeds
    .ok ("Document deleted successfully", { db with
      documents := db.documents.eraseP
        (fun u => u.id == document_id && u.organization_id == orgId) })

/-! ## List endpoints with aggregates (tasks.py list_tasks, controls.py) -/

/-- The per-row test of the Python aggregation loop in `list_tasks`:
`if task.due_date and task.due_date < now and task.status != TaskStatus.DONE`.
Aware datetimes compare by instant. -/
def is_overdue_row (t : Task) (now : Int) : Bool :=
  match t.due_date with
  | none => false
  | some d => decide (d.instant < now) && decide (t.status ≠ TaskStatus.done)

/-- `order_by(Task.due_date.asc().nullslast())` comparator on stored instants. -/
def dueLe (a b : Task) : Bool :=
  match a.due_date, b.due_date with
  | none, none => true
  | none, some _ => false
  | some _, none => true
  | some x, some y => decide (x.instant ≤ y.instant)

/-- TaskListResponse (app/schemas/task.py). The Python dicts `by_status` and
`by_priority` are embedded as total functions; a key absent from the dict
counts 0. -/
structure TaskListResponse where
  tasks : List Task
  total : Nat
  by_status : TaskStatus → Nat
  by_priority : TaskPriority → Nat
  overdue_count : Nat

def list_tasks (db : DBState) (orgId : String)
    (status : Option TaskStatus) (priority : Option TaskPriority)
    (control_id : Option String) (assignee_id : Option String)
    (overdue_only : Bool) (search : Option String) (now : Int) :
    TaskListResponse :=
  let q0 := db.tasks.filter (fun t => t.organization_id == orgId)
  let q1 := match status with
    | none => q0
    | some s => q0.filter (fun t => decide (t.status = s))
  let q2 := match priority with
    | none => q1
    | some p => q1.filter (fun t => decide (t.priority = p))
  let q3 := match control_id with
    | none => q2
    | some c => q2.filter (fun t => t.control_id == some c)
  let q4 := match assignee_id with
    | none => q3
    | some a => q3.filter (fun t => t.assignee_id == some a)
  let q5 := if overdue_only then
      q4.filter (fun t => sqlLt t.due_date now && decide (t.status ≠ TaskStatus.done))
    else q4
  let q6 := match search with
    | none => q5
    | some s => q5.filter (fun t => ilikeSub t.title s || ilikeSubOpt t.description s)
  let tasks := q6.mergeSort dueLe
  { tasks := tasks
    total := tasks.length
    by_status := fun s => tasks.countP (fun t => decide (t.status = s))
    by_priority := fun p => tasks.countP (fun t => decide (t.priority = p))
    overdue_count := tasks.countP (fun t => is_overdue_row t now) }

/-- ControlListResponse (app/schemas/control.py), dicts as total functions. -/
structure ControlListResponse where
  controls : List OrganizationControl
  total : Nat
  by_status : ControlStatus → Nat
  by_category : String → Nat

def list_controls (db : DBState) (orgId : String)
    (status : Option ControlStatus) (category : Option String)
    (search : Option String) : ControlListResponse :=
  let q0 := db.orgControls.filter (fun c => c.organization_id == orgId)
  let q1 := match status with
    | none => q0
    | some s => q0.filter (fun c => decide (c.status = s))
  let q2 := match category with
    | none => q1
    | some cat => q1.filter (fun c => c.control.category == cat)
  let q3 := match search with
    | none => q2
    | some s => q2.filter (fun c =>
        ilikeSub c.control.name_ko s || ilikeSub c.control.name_en s
          || ilikeSub c.control.control_id s)
  { controls := q3
    total := q3.length
    by_status := fun s => q3.countP (fun c => decide (c.status = s))
    by_category := fun cat => q3.countP (fun c => c.control.category == cat) }

/-- ControlCategoryResponse (app/schemas/control.py). -/
structure ControlCategoryResponse where
  category : String
  category_name_en : String
  category_name_ko : String
  controls : List OrganizationControl
  total : Nat
  completed : Nat

/-- Distinct elements in first-occurrence order: the keys of the Python dict
built by the grouping loop (insertion order is preserved). -/
def firstOccur : List String → List String
  | [] => []
  | c :: t => c :: firstOccur (t.filter (fun x => !(x == c)))
termination_by l => l.length
decreasing_by
  simp only [List.length_cons]
  exact Nat.lt_succ_of_le (List.length_filter_le _ _)

/-- One entry of the grouping dict in list_controls_by_category: members kept
in encounter order, category names taken from the first member seen, total
and completed computed over the members. -/
def categoryGroup (ocs : List OrganizationControl) (cat : String) :
    ControlCategoryResponse :=
  let members := ocs.filter (fun c => c.control.category == cat)
  { category := cat
    category_name_en := ((members.head?).map (fun c => c.control.category_name_en)).getD ""
    category_name_ko := ((members.head?).map (fun c => c.control.category_name_ko)).getD ""
    controls := members
    total := members.length
    completed := members.countP (fun c => decide (c.status = ControlStatus.completed)) }

/-- GET /controls/categories (controls.py, list_controls_by_category): group
the organization's full adoption set by category (dict keys in first-
encounter order), then `sorted(..., key=lambda x: x["category"])`. -/
def list_controls_by_category (db : DBState) (orgId : String) :
    List ControlCategoryResponse :=
  let ocs := db.orgControls.filter (fun c => c.organization_id == orgId)
  let cats := firstOccur (ocs.map (fun c => c.control.category))
  (cats.map (categoryGroup ocs)).mergeSort
    (fun a b => decide (a.category ≤ b.category))

/-! ## Organization stats (organizations.py, get_organization_stats) -/

structure OrganizationStatsResponse where
  total_controls : Nat
  completed_controls : Nat
  in_progress_controls : Nat
  not_started_controls : Nat
  total_tasks : Nat
  completed_tasks : Nat
  overdue_tasks : Nat
  total_documents : Nat
  expiring_documents : Nat
deriving DecidableEq, Repr

def get_organization_stats (db : DBState) (orgId : String) (now : Int) :
    OrganizationStatsResponse :=
  let ocs := db.orgControls.filter (fun c => c.organization_id == orgId)
  let tasks := db.tasks.filter (fun t => t.organization_id == orgId)
  let docs := db.documents.filter (fun d => d.organization_id == orgId)
  { total_controls := ocs.length
    completed_controls := sumIf (fun c => decide (c.status = ControlStatus.completed)) ocs
    in_progress_controls := sumIf (fun c => decide (c.status = ControlStatus.in_progress)) ocs
    not_started_controls := sumIf (fun c => decide (c.status = ControlStatus.not_started)) ocs
    total_tasks := tasks.length
    completed_tasks := sumIf (fun t => decide (t.status = TaskStatus.done)) tasks
    overdue_tasks := (db.tasks.filter (fun t =>
      t.organization_id == orgId && decide (t.status ≠ TaskStatus.done)
        && sqlLt t.due_date now)).length
    total_documents := docs.length
    expiring_documents := (db.documents.filter (fun d =>
      d.organization_id == orgId && d.expires_at.isSome
        && sqlLe d.expires_at (now + 30 * minutesPerDay))).length }

/-! ## Registration (auth.py register, database.py get_db) -/

/-- Modelled from the spec (§6 external surface) and the field accesses in
auth.py: the POST /auth/register body; app/schemas/auth.py is not part of
src. -/
structure RegisterRequest where
  email : String
  name : String
  password : String
  organization_name : String
deriving DecidableEq, Repr

/-- Modelled from the spec (§6 Password Hasher): `get_password_hash` lives in
app/core/security.py, which is not part of src; the claims only need it to
be a pure function of the password. -/
def get_password_hash (password : String) : String :=
  "hashed$" ++ password

def emailAlreadyRegistered : HTTPError := ⟨400, "Email already registered"⟩

/-- The body of POST /auth/register as run inside the request's session.
`concurrentEmails` models user rows committed by other transactions between
this handler's duplicate-email pre-check (which reads the snapshot `db`) and
the user INSERT's unique-constraint check at flush; a hit makes the flush
raise an IntegrityError out of the handler. Token generation (security.py)
has no database effect and is not modelled. -/
def register_body (db : DBState) (concurrentEmails : List String)
    (request : RegisterRequest) (newOrgId newUserId : String) :
    Except HTTPError DBState :=
  if db.users.any (fun u => u.email == request.email) then
    .error emailAlreadyRegistered
  else
    let organization : Organization := ⟨newOrgId, request.organization_name, "startup"⟩
    let db1 : DBState := { db with organizations := db.organizations ++ [organization] }
    if concurrentEmails.contains request.email then
      .error ⟨500, "IntegrityError: duplicate email"⟩
    else
      let user : User := ⟨newUserId, request.email, some request.name,
        get_password_hash request.password, "admin", newOrgId⟩
      .ok { db1 with users := db1.users ++ [user] }

/-- get_db (app/db/database.py): open a session, run the handler, commit on
success, roll the whole transaction back when the handler raises. Returns
the committed store plus the propagated error, if any. -/
def run_with_db (db : DBState) (body : DBState → Except HTTPError DBState) :
    DBState × Option HTTPError :=
  match body db with
  | .ok db2 => (db2, none)
  | .error e => (db, some e)

/-! ## Concrete rows and stores for witnesses and counterexamples -/

/-- A control-catalog row shared by the example stores. -/
def exControl : Control :=
  ⟨"ctl1", "A.5.1", "Policies for information security", "정보보호 정책",
    none, none, "A.5", "Organizational controls", "조직적 통제"⟩

def exTask2 : Task :=
  ⟨"t2", "org2", "Review policy", some "desc", TaskStatus.todo,
    TaskPriority.medium, some ⟨2880, some 0⟩, none, none, none⟩

def exOC2 : OrganizationControl :=
  ⟨"c2", "org2", "ctl1", ControlStatus.not_started, true, none, exControl⟩

def exDoc2 : Document :=
  ⟨"d2", "org2", "Policy.pdf", none, "org2/documents/x.pdf", 10,
    "application/pdf", 1, none, none, none, "u2"⟩

/-- Store holding one task, one adoption record and one document, all owned
by org2. -/
def exDb1 : DBState := ⟨[], [], [exOC2], [exTask2], [exDoc2]⟩

/-- A fully populated task, adoption record and document owned by org1, for
the partial-update witnesses. -/
def exTask4 : Task :=
  ⟨"t4", "org1", "Old title", some "old desc", TaskStatus.in_progress,
    TaskPriority.high, some ⟨100, some 0⟩, some "FREQ=WEEKLY", some "c4",
    some "u4"⟩

def exOC4 : OrganizationControl :=
  ⟨"c4", "org1", "ctl1", ControlStatus.in_progress, true, some "notes",
    exControl⟩

def exDoc4 : Document :=
  ⟨"d4", "org1", "Evidence.pdf", some "evidence", "org1/documents/y.pdf", 42,
    "application/pdf", 2, some ⟨500, some 0⟩, some "c4", some "t4", "u4"⟩

def exDb4 : DBState := ⟨[], [], [exOC4], [exTask4], [exDoc4]⟩

/-- Store with one document owned by org1, for the delete-document claim. -/
def exDb6 : DBState := ⟨[], [], [], [], [⟨"d1", "org1", "Old.pdf", none,
  "org1/documents/z.pdf", 7, "application/pdf", 1, none, none, none, "u1"⟩]⟩

/-- Store with one organization and one registered user, for the
duplicate-email registration claims. -/
def exUser9 : User :=
  ⟨"u0", "a@x.com", some "A", "hash0", "admin", "org9"⟩

def exDb9 : DBState := ⟨[⟨"org9", "Acme", "startup"⟩], [exUser9], [], [], []⟩

def exReq9 : RegisterRequest := ⟨"a@x.com", "B", "pw", "Beta"⟩

/-- A registration request with a fresh email, for the atomicity witness. -/
def exReq5 : RegisterRequest := ⟨"new@x.com", "N", "pw2", "Gamma"⟩

/-! # Shared lemmas -/

theorem fdiv_mul_sub_self (a b : Int) :
    Int.fdiv (minutesPerDay * a - minutesPerDay * b) minutesPerDay = a - b := by
  rw [← mul_sub]
  exact Int.mul_fdiv_cancel_left _ (by norm_num [minutesPerDay])

/-- For a naive or UTC-zoned due timestamp, the in-zone day truncation of
`calculate_dday` collapses to the spec's UTC-day truncation. -/
theorem calculate_dday_eq_spec_of_utc (d : PyDateTime) (now : Int)
    (h : d.tz = none ∨ d.tz = some 0) :
    calculate_dday (some d) now = calculate_dday_from_spec (some d) now := by
  rcases h with h | h <;>
    simp only [calculate_dday, calculate_dday_from_spec, h, PyDateTime.instant,
      Option.getD_some, Option.getD_none, sub_zero, reduceCtorEq, if_true,
      if_false, ite_true, ite_false, reduceIte, fdiv_mul_sub_self]

/-- A find over rows scoped to `o1` cannot hit a row whose primary key
belongs to a row owned by a different organization `o2`. -/
theorem find?_scoped_eq_none {α : Type} (rows : List α) (idOf orgOf : α → String)
    (o1 o2 : String) (hne : o1 ≠ o2) (r : α)
    (hro : orgOf r = o2) (huniq : ∀ u ∈ rows, idOf u = idOf r → u = r) :
    rows.find? (fun u => idOf u == idOf r && orgOf u == o1) = none := by
  apply List.find?_eq_none.mpr
  intro u hu hp
  simp only [Bool.and_eq_true, beq_iff_eq] at hp
  obtain ⟨hid, horg⟩ := hp
  have hur : u = r := huniq u hu hid
  rw [hur, hro] at horg
  exact hne horg.symm

/-- Every task has exactly one status, so the four per-status counts
partition the list. -/
theorem countP_task_status_partition (l : List Task) :
    l.countP (fun t => decide (t.status = TaskStatus.todo))
      + l.countP (fun t => decide (t.status = TaskStatus.in_progress))
      + l.countP (fun t => decide (t.status = TaskStatus.review))
      + l.countP (fun t => decide (t.status = TaskStatus.done)) = l.length := by
  induction l with
  | nil => rfl
  | cons a l ih =>
    simp only [List.countP_cons, List.length_cons]
    cases ha : a.status <;> simp [ha] <;> omega

/-- Every task has exactly one priority, so the four per-priority counts
partition the list. -/
theorem countP_task_priority_partition (l : List Task) :
    l.countP (fun t => decide (t.priority = TaskPriority.low))
      + l.countP (fun t => decide (t.priority = TaskPriority.medium))
      + l.countP (fun t => decide (t.priority = TaskPriority.high))
      + l.countP (fun t => decide (t.priority = TaskPriority.urgent)) = l.length := by
  induction l with
  | nil => rfl
  | cons a l ih =>
    simp only [List.countP_cons, List.length_cons]
    cases ha : a.priority <;> simp [ha] <;> omega

/-- Every adoption record has exactly one status, so the five per-status
counts partition the list. -/
theorem countP_control_status_partition (l : List OrganizationControl) :
    l.countP (fun c => decide (c.status = ControlStatus.not_started))
      + l.countP (fun c => decide (c.status = ControlStatus.in_progress))
      + l.countP (fun c => decide (c.status = ControlStatus.review_pending))
      + l.countP (fun c => decide (c.status = ControlStatus.completed))
      + l.countP (fun c => decide (c.status = ControlStatus.not_applicable))
      = l.length := by
  induction l with
  | nil => rfl
  | cons a l ih =>
    simp only [List.countP_cons, List.length_cons]
    cases ha : a.status <;> simp [ha] <;> omega

/-- The aggregation loop's overdue test equals the SQL-style formulation. -/
theorem is_overdue_row_eq_sql (t : Task) (now : Int) :
    is_overdue_row t now
      = (sqlLt t.due_date now && decide (t.status ≠ TaskStatus.done)) := by
  cases h : t.due_date <;> simp [is_overdue_row, sqlLt, h]

/-- find? returns the unique member satisfying the predicate. -/
theorem find?_eq_some_of_unique {α : Type} {p : α → Bool} {l : List α} {a : α}
    (ha : a ∈ l) (hpa : p a = true) (huniq : ∀ b ∈ l, p b = true → b = a) :
    l.find? p = some a := by
  induction l with
  | nil => cases ha
  | cons x l ih =>
    rcases List.mem_cons.mp ha with rfl | hal
    · simp [List.find?_cons, hpa]
    · by_cases hx : p x = true
      · have hxa : x = a := huniq x (List.mem_cons_self x l) hx
        subst hxa
        simp [List.find?_cons, hx]
      · rw [Bool.not_eq_true] at hx
        simp only [List.find?_cons, hx]
        exact ih hal (fun b hb hpb => huniq b (List.mem_cons_of_mem x hb) hpb)

/-- Field-by-field behavior of the task setattr loop: supplied payload
fields are assigned, omitted ones keep their prior values. -/
theorem applyTaskUpdate_frame (p : TaskUpdate) (t : Task) :
    (applyTaskUpdate p t).id = t.id ∧
    (applyTaskUpdate p t).organization_id = t.organization_id ∧
    (p.title = none → (applyTaskUpdate p t).title = t.title) ∧
    (∀ v, p.title = some v → (applyTaskUpdate p t).title = v) ∧
    (p.description = none → (applyTaskUpdate p t).description = t.description) ∧
    (∀ v, p.description = some v → (applyTaskUpdate p t).description = v) ∧
    (p.status = none → (applyTaskUpdate p t).status = t.status) ∧
    (∀ v, p.status = some v → (applyTaskUpdate p t).status = v) ∧
    (p.priority = none → (applyTaskUpdate p t).priority = t.priority) ∧
    (∀ v, p.priority = some v → (applyTaskUpdate p t).priority = v) ∧
    (p.due_date = none → (applyTaskUpdate p t).due_date = t.due_date) ∧
    (∀ v, p.due_date = some v → (applyTaskUpdate p t).due_date = v) ∧
    (p.control_id = none → (applyTaskUpdate p t).control_id = t.control_id) ∧
    (∀ v, p.control_id = some v → (applyTaskUpdate p t).control_id = v) ∧
    (p.assignee_id = none → (applyTaskUpdate p t).assignee_id = t.assignee_id) ∧
    (∀ v, p.assignee_id = some v → (applyTaskUpdate p t).assignee_id = v) ∧
    (p.recurring_rule = none →
      (applyTaskUpdate p t).recurring_rule = t.recurring_rule) ∧
    (∀ v, p.recurring_rule = some v →
      (applyTaskUpdate p t).recurring_rule = v) := by
  refine ⟨rfl, rfl, ?_, ?_, ?_, ?_, ?_, ?_, ?_, ?_, ?_, ?_, ?_, ?_, ?_, ?_,
    ?_, ?_⟩ <;> (intros; simp_all [applyTaskUpdate])

/-- Field-by-field behavior of the control setattr loop. -/
theorem applyControlUpdate_frame (pc : OrganizationControlUpdate)
    (c : OrganizationControl) :
    (applyControlUpdate pc c).id = c.id ∧
    (applyControlUpdate pc c).organization_id = c.organization_id ∧
    (applyControlUpdate pc c).control_id = c.control_id ∧
    (applyControlUpdate pc c).control = c.control ∧
    (pc.status = none → (applyControlUpdate pc c).status = c.status) ∧
    (∀ v, pc.status = some v → (applyControlUpdate pc c).status = v) ∧
    (pc.is_applicable = none →
      (applyControlUpdate pc c).is_applicable = c.is_applicable) ∧
    (∀ v, pc.is_applicable = some v →
      (applyControlUpdate pc c).is_applicable = v) ∧
    (pc.notes = none → (applyControlUpdate pc c).notes = c.notes) ∧
    (∀ v, pc.notes = some v → (applyControlUpdate pc c).notes = v) := by
  refine ⟨rfl, rfl, rfl, rfl, ?_, ?_, ?_, ?_, ?_, ?_⟩ <;>
    (intros; simp_all [applyControlUpdate])

/-- Field-by-field behavior of the document setattr loop. -/
theorem applyDocumentUpdate_frame (pd : DocumentUpdate) (d : Document) :
    (applyDocumentUpdate pd d).id = d.id ∧
    (applyDocumentUpdate pd d).organization_id = d.organization_id ∧
    (applyDocumentUpdate pd d).file_key = d.file_key ∧
    (applyDocumentUpdate pd d).file_size = d.file_size ∧
    (applyDocumentUpdate pd d).mime_type = d.mime_type ∧
    (applyDocumentUpdate pd d).version = d.version ∧
    (applyDocumentUpdate pd d).uploaded_by_id = d.uploaded_by_id ∧
    (pd.name = none → (applyDocumentUpdate pd d).name = d.name) ∧
    (∀ v, pd.name = some v → (applyDocumentUpdate pd d).name = v) ∧
    (pd.description = none →
      (applyDocumentUpdate pd d).description = d.description) ∧
    (∀ v, pd.description = some v → (applyDocumentUpdate pd d).description = v) ∧
    (pd.expires_at = none → (applyDocumentUpdate pd d).expires_at = d.expires_at) ∧
    (∀ v, pd.expires_at = some v → (applyDocumentUpdate pd d).expires_at = v) ∧
    (pd.control_id = none → (applyDocumentUpdate pd d).control_id = d.control_id) ∧
    (∀ v, pd.control_id = some v → (applyDocumentUpdate pd d).control_id = v) ∧
    (pd.task_id = none → (applyDocumentUpdate pd d).task_id = d.task_id) ∧
    (∀ v, pd.task_id = some v → (applyDocumentUpdate pd d).task_id = v) := by
  refine ⟨rfl, rfl, rfl, rfl, rfl, rfl, rfl, ?_, ?_, ?_, ?_, ?_, ?_, ?_, ?_,
    ?_, ?_⟩ <;> (intros; simp_all [applyDocumentUpdate])

/-- SUM(IF(p,1,0)) equals the size of the subset satisfying p. -/
theorem sumIf_eq_length_filter (p : α → Bool) (l : List α) :
    sumIf p l = (l.filter p).length := by
  induction l with
  | nil => rfl
  | cons a l ih =>
    have hstep : sumIf p (a :: l) = (if p a then 1 else 0) + sumIf p l := by
      simp [sumIf]
    rw [hstep, ih, List.filter_cons]
    cases hpa : p a <;> simp [Nat.add_comm]

/-! # Claim theorems -/

/-- C3: the by_status, by_priority and overdue aggregates of list_tasks are
computed over exactly the returned filtered task list (the per-status counts
sum to the total, the per-priority counts sum to the total, and the overdue
count is the number of returned tasks with a non-null due date before now
and status not done), and list_controls' by_status counts likewise sum to
its total, for every organization state and filter combination. -/
theorem list_aggregates_computed_over_filtered_set
    (db : DBState) (orgId : String) (status : Option TaskStatus)
    (priority : Option TaskPriority) (control_id assignee_id : Option String)
    (overdue_only : Bool) (search : Option String) (now : Int)
    (cstatus : Option ControlStatus) (category csearch : Option String) :
    (let r := list_tasks db orgId status priority control_id assignee_id
        overdue_only search now
     r.by_status TaskStatus.todo + r.by_status TaskStatus.in_progress
        + r.by_status TaskStatus.review + r.by_status TaskStatus.done
        = r.total ∧
     r.by_priority TaskPriority.low + r.by_priority TaskPriority.medium
        + r.by_priority TaskPriority.high + r.by_priority TaskPriority.urgent
        = r.total ∧
     r.overdue_count = (r.tasks.filter (fun t =>
        sqlLt t.due_date now && decide (t.status ≠ TaskStatus.done))).length) ∧
    (let rc := list_controls db orgId cstatus category csearch
     rc.by_status ControlStatus.not_started
        + rc.by_status ControlStatus.in_progress
        + rc.by_status ControlStatus.review_pending
        + rc.by_status ControlStatus.completed
        + rc.by_status ControlStatus.not_applicable = rc.total) := by
  refine ⟨⟨?_, ?_, ?_⟩, ?_⟩
  · simp only [list_tasks]
    exact countP_task_status_partition _
  · simp only [list_tasks]
    exact countP_task_priority_partition _
  · simp only [list_tasks]
    rw [List.countP_eq_length_filter]
    congr 1
    apply List.filter_congr
    intro a _
    exact is_overdue_row_eq_sql a now
  · simp only [list_controls]
    exact countP_control_status_partition _

/-- C1: for distinct organizations o1 and o2 and any task, organization
control or document owned by o2, every id-addressed operation run under
o1's context (get/update/delete task, get/update control, get/update/delete
document) fails with the 404 not-found error, and the store is neither
returned from nor modified (each operation's error result carries no new
state). -/
theorem cross_tenant_requests_yield_not_found
    (db : DBState) (o1 o2 : String) (hne : o1 ≠ o2)
    (t : Task) (_ht : t ∈ db.tasks) (hto : t.organization_id = o2)
    (htu : ∀ u ∈ db.tasks, u.id = t.id → u = t)
    (c : OrganizationControl) (_hc : c ∈ db.orgControls)
    (hco : c.organization_id = o2)
    (hcu : ∀ u ∈ db.orgControls, u.id = c.id → u = c)
    (d : Document) (_hd : d ∈ db.documents) (hdo : d.organization_id = o2)
    (hdu : ∀ u ∈ db.documents, u.id = d.id → u = d)
    (p : TaskUpdate) (pc : OrganizationControlUpdate) (pd : DocumentUpdate)
    (blobOk : Bool) :
    get_task db o1 t.id = .error taskNotFound ∧
    update_task db o1 t.id p = .error taskNotFound ∧
    delete_task db o1 t.id = .error taskNotFound ∧
    get_control db o1 c.id = .error controlNotFound ∧
    update_control db o1 c.id pc = .error controlNotFound ∧
    get_document db o1 d.id = .error documentNotFound ∧
    update_document db o1 d.id pd = .error documentNotFound ∧
    delete_document db o1 d.id blobOk = .error documentNotFound := by
  have hft : findTask db o1 t.id = none :=
    find?_scoped_eq_none db.tasks (fun u => u.id) (fun u => u.organization_id)
      o1 o2 hne t hto htu
  have hfc : findControl db o1 c.id = none :=
    find?_scoped_eq_none db.orgControls (fun u => u.id)
      (fun u => u.organization_id) o1 o2 hne c hco hcu
  have hfd : findDocument db o1 d.id = none :=
    find?_scoped_eq_none db.documents (fun u => u.id)
      (fun u => u.organization_id) o1 o2 hne d hdo hdu
  refine ⟨?_, ?_, ?_, ?_, ?_, ?_, ?_, ?_⟩ <;>
    simp [get_task, update_task, delete_task, get_control, update_control,
      get_document, update_document, delete_document, hft, hfc, hfd]

/-- Witness for C1: org1's context addressing org2's rows in a concrete
store gets 404 on every operation. -/
theorem cross_tenant_requests_yield_not_found_witness :
    get_task exDb1 "org1" "t2" = .error taskNotFound ∧
    update_task exDb1 "org1" "t2" {} = .error taskNotFound ∧
    delete_task exDb1 "org1" "t2" = .error taskNotFound ∧
    get_control exDb1 "org1" "c2" = .error controlNotFound ∧
    update_control exDb1 "org1" "c2" {} = .error controlNotFound ∧
    get_document exDb1 "org1" "d2" = .error documentNotFound ∧
    update_document exDb1 "org1" "d2" {} = .error documentNotFound ∧
    delete_document exDb1 "org1" "d2" true = .error documentNotFound :=
  cross_tenant_requests_yield_not_found exDb1 "org1" "org2" (by decide)
    exTask2 (by simp [exDb1]) rfl
    (by intro u hu _; simpa [exDb1] using hu)
    exOC2 (by simp [exDb1]) rfl
    (by intro u hu _; simpa [exDb1] using hu)
    exDoc2 (by simp [exDb1]) rfl
    (by intro u hu _; simpa [exDb1] using hu)
    {} {} {} true

/-- C2 (amended): for every due timestamp that is naive (treated as UTC) or
carries the UTC zone, and every current instant, calculate_dday agrees with
the spec's rule: truncate both to UTC calendar days, diff = due_day -
now_day, label D-Day / D-diff / D+|diff| with is_overdue exactly when
diff < 0, and a null due date yields a null label and is_overdue = false.
(A due timestamp carrying a non-UTC zone is truncated in its own zone.) -/
theorem dday_matches_spec_rule_for_utc_inputs (due : Option PyDateTime)
    (now : Int) (h : ∀ d, due = some d → d.tz = none ∨ d.tz = some 0) :
    calculate_dday due now = calculate_dday_from_spec due now := by
  cases due with
  | none => rfl
  | some d => exact calculate_dday_eq_spec_of_utc d now (h d rfl)

/-- Witness for the amended C2 theorem at a concrete UTC-zoned input. -/
theorem dday_matches_spec_rule_for_utc_inputs_witness :
    calculate_dday (some ⟨7200, some 0⟩) 100 =
      calculate_dday_from_spec (some ⟨7200, some 0⟩) 100 :=
  dday_matches_spec_rule_for_utc_inputs (some ⟨7200, some 0⟩) 100
    (fun d hd => by cases hd; exact Or.inr rfl)

/-- C2 counterexample: a due timestamp at wall-clock 23:00 of epoch day 0 in
a +09:00 zone (instant 14:00 UTC day 0), with the current instant 01:00 UTC
day 0, falls on the current UTC calendar day, yet calculate_dday truncates
it in its own zone and answers D+1 / overdue where the claim's UTC rule
says D-Day / not overdue. -/
theorem dday_truncates_in_own_zone_counterexample :
    calculate_dday (some ⟨1380, some 540⟩) 60 = (some "D+1", true) ∧
    calculate_dday_from_spec (some ⟨1380, some 540⟩) 60 = (some "D-Day", false) ∧
    calculate_dday (some ⟨1380, some 540⟩) 60 ≠
      calculate_dday_from_spec (some ⟨1380, some 540⟩) 60 := by
  refine ⟨?_, ?_, ?_⟩ <;> decide

/-- C10: a task whose non-null due date is UTC (or naive) and falls on the
current UTC calendar day but strictly before the current instant, with
status not done, is counted overdue by list_tasks' exact-instant test
(due_date < now), while calculate_dday on the same due date answers D-Day
with is_overdue = false. -/
theorem same_day_overdue_notions_disagree (t : Task) (d : PyDateTime)
    (now : Int) (hdue : t.due_date = some d)
    (htz : d.tz = none ∨ d.tz = some 0)
    (hday : Int.fdiv d.instant minutesPerDay = Int.fdiv now minutesPerDay)
    (hlt : d.instant < now) (hst : t.status ≠ TaskStatus.done) :
    is_overdue_row t now = true ∧
    (list_tasks ⟨[], [], [], [t], []⟩ t.organization_id none none none none
        false none now).overdue_count = 1 ∧
    calculate_dday t.due_date now = (some "D-Day", false) := by
  have hover : is_overdue_row t now = true := by
    simp [is_overdue_row, hdue, hlt, hst]
  refine ⟨hover, ?_, ?_⟩
  · simp [list_tasks, List.mergeSort_singleton, List.countP_singleton, hover]
  · rw [hdue, calculate_dday_eq_spec_of_utc d now htz]
    simp [calculate_dday_from_spec, hday]

/-- Witness for C10 at a concrete task whose due date is 13:00 UTC of epoch
day 0 with the clock at 20:00 UTC the same day. -/
theorem same_day_overdue_notions_disagree_witness :
    is_overdue_row ⟨"t1", "org1", "a", none, TaskStatus.todo,
        TaskPriority.medium, some ⟨780, some 0⟩, none, none, none⟩ 1200 = true ∧
    (list_tasks ⟨[], [], [], [⟨"t1", "org1", "a", none, TaskStatus.todo,
        TaskPriority.medium, some ⟨780, some 0⟩, none, none, none⟩], []⟩
        "org1" none none none none false none 1200).overdue_count = 1 ∧
    calculate_dday (some ⟨780, some 0⟩) 1200 = (some "D-Day", false) :=
  same_day_overdue_notions_disagree
    ⟨"t1", "org1", "a", none, TaskStatus.todo, TaskPriority.medium,
      some ⟨780, some 0⟩, none, none, none⟩
    ⟨780, some 0⟩ 1200 rfl (Or.inr rfl) (by decide) (by decide) (by decide)

/-- C4: updating an existing organization-scoped task, organization control
or document assigns exactly the payload fields that are present and leaves
every omitted field at its prior value — including the primary key and
organization, the control's joined Control row, and the document's storage
metadata, none of which appear in any payload. -/
theorem partial_update_sets_exactly_supplied_fields
    (db : DBState) (orgId : String)
    (t : Task) (ht : t ∈ db.tasks) (hto : t.organization_id = orgId)
    (htu : ∀ u ∈ db.tasks, u.id = t.id → u = t)
    (c : OrganizationControl) (hc : c ∈ db.orgControls)
    (hco : c.organization_id = orgId)
    (hcu : ∀ u ∈ db.orgControls, u.id = c.id → u = c)
    (d : Document) (hd : d ∈ db.documents) (hdo : d.organization_id = orgId)
    (hdu : ∀ u ∈ db.documents, u.id = d.id → u = d)
    (p : TaskUpdate) (pc : OrganizationControlUpdate) (pd : DocumentUpdate) :
    (∃ t2 db2, update_task db orgId t.id p = Except.ok (t2, db2) ∧
      t2.id = t.id ∧
      t2.organization_id = t.organization_id ∧
      (p.title = none → t2.title = t.title) ∧
      (∀ v, p.title = some v → t2.title = v) ∧
      (p.description = none → t2.description = t.description) ∧
      (∀ v, p.description = some v → t2.description = v) ∧
      (p.status = none → t2.status = t.status) ∧
      (∀ v, p.status = some v → t2.status = v) ∧
      (p.priority = none → t2.priority = t.priority) ∧
      (∀ v, p.priority = some v → t2.priority = v) ∧
      (p.due_date = none → t2.due_date = t.due_date) ∧
      (∀ v, p.due_date = some v → t2.due_date = v) ∧
      (p.control_id = none → t2.control_id = t.control_id) ∧
      (∀ v, p.control_id = some v → t2.control_id = v) ∧
      (p.assignee_id = none → t2.assignee_id = t.assignee_id) ∧
      (∀ v, p.assignee_id = some v → t2.assignee_id = v) ∧
      (p.recurring_rule = none → t2.recurring_rule = t.recurring_rule) ∧
      (∀ v, p.recurring_rule = some v → t2.recurring_rule = v)) ∧
    (∃ c2 db2, update_control db orgId c.id pc = Except.ok (c2, db2) ∧
      c2.id = c.id ∧
      c2.organization_id = c.organization_id ∧
      c2.control_id = c.control_id ∧
      c2.control = c.control ∧
      (pc.status = none → c2.status = c.status) ∧
      (∀ v, pc.status = some v → c2.status = v) ∧
      (pc.is_applicable = none → c2.is_applicable = c.is_applicable) ∧
      (∀ v, pc.is_applicable = some v → c2.is_applicable = v) ∧
      (pc.notes = none → c2.notes = c.notes) ∧
      (∀ v, pc.notes = some v → c2.notes = v)) ∧
    (∃ d2 db2, update_document db orgId d.id pd = Except.ok (d2, db2) ∧
      d2.id = d.id ∧
      d2.organization_id = d.organization_id ∧
      d2.file_key = d.file_key ∧
      d2.file_size = d.file_size ∧
      d2.mime_type = d.mime_type ∧
      d2.version = d.version ∧
      d2.uploaded_by_id = d.uploaded_by_id ∧
      (pd.name = none → d2.name = d.name) ∧
      (∀ v, pd.name = some v → d2.name = v) ∧
      (pd.description = none → d2.description = d.description) ∧
      (∀ v, pd.description = some v → d2.description = v) ∧
      (pd.expires_at = none → d2.expires_at = d.expires_at) ∧
      (∀ v, pd.expires_at = some v → d2.expires_at = v) ∧
      (pd.control_id = none → d2.control_id = d.control_id) ∧
      (∀ v, pd.control_id = some v → d2.control_id = v) ∧
      (pd.task_id = none → d2.task_id = d.task_id) ∧
      (∀ v, pd.task_id = some v → d2.task_id = v)) := by
  have hft : findTask db orgId t.id = some t := by
    apply find?_eq_some_of_unique ht (by simp [hto])
    intro b hb hpb
    simp only [Bool.and_eq_true, beq_iff_eq] at hpb
    exact htu b hb hpb.1
  have hfc : findControl db orgId c.id = some c := by
    apply find?_eq_some_of_unique hc (by simp [hco])
    intro b hb hpb
    simp only [Bool.and_eq_true, beq_iff_eq] at hpb
    exact hcu b hb hpb.1
  have hfd : findDocument db orgId d.id = some d := by
    apply find?_eq_some_of_unique hd (by simp [hdo])
    intro b hb hpb
    simp only [Bool.and_eq_true, beq_iff_eq] at hpb
    exact hdu b hb hpb.1
  refine ⟨⟨applyTaskUpdate p t, { db with tasks := replaceFirst (fun u => u.id == t.id && u.organization_id == orgId) (applyTaskUpdate p t) db.tasks }, ?_, applyTaskUpdate_frame p t⟩, ⟨applyControlUpdate pc c, { db with orgControls := replaceFirst (fun u => u.id == c.id && u.organization_id == orgId) (applyControlUpdate pc c) db.orgControls }, ?_, applyControlUpdate_frame pc c⟩, ⟨applyDocumentUpdate pd d, { db with documents := replaceFirst (fun u => u.id == d.id && u.organization_id == orgId) (applyDocumentUpdate pd d) db.documents }, ?_, applyDocumentUpdate_frame pd d⟩⟩
  · simp [update_task, hft]
  · simp [update_control, hfc]
  · simp [update_document, hfd]

/-- Witness for C4: in a concrete store, patching only the title of a fully
populated org1 task sets the title and keeps description and status. -/
theorem partial_update_sets_exactly_supplied_fields_witness :
    ∃ t2 db2,
      update_task exDb4 "org1" "t4" { title := some "New title" }
        = Except.ok (t2, db2) ∧
      t2.title = "New title" ∧
      t2.description = exTask4.description ∧
      t2.status = exTask4.status := by
  obtain ⟨⟨t2, db2, heq, -, -, -, hTitleS, hDescN, -, hStatN, -, -⟩, -, -⟩ :=
    partial_update_sets_exactly_supplied_fields exDb4 "org1"
      exTask4 (by simp [exDb4]) rfl
      (by intro u hu _; simpa [exDb4] using hu)
      exOC4 (by simp [exDb4]) rfl
      (by intro u hu _; simpa [exDb4] using hu)
      exDoc4 (by simp [exDb4]) rfl
      (by intro u hu _; simpa [exDb4] using hu)
      { title := some "New title" } {} {}
  exact ⟨t2, db2, heq, hTitleS "New title" rfl, hDescN rfl, hStatN rfl⟩

/-- C5: registration is atomic under get_db's commit/rollback scope — on a
successful request both the organization row and the admin-user row become
visible in the committed store, and on any failure (in particular a
user-insert failure after the organization insert) the committed store is
unchanged, so no organization row persists. -/
theorem registration_commits_both_rows_or_neither
    (db : DBState) (conc : List String) (req : RegisterRequest)
    (oid uid : String) :
    ((run_with_db db (fun s => register_body s conc req oid uid)).2 = none →
      (run_with_db db (fun s => register_body s conc req oid uid)).1.organizations
        = db.organizations ++ [⟨oid, req.organization_name, "startup"⟩] ∧
      (run_with_db db (fun s => register_body s conc req oid uid)).1.users
        = db.users ++ [⟨uid, req.email, some req.name,
            get_password_hash req.password, "admin", oid⟩]) ∧
    ((run_with_db db (fun s => register_body s conc req oid uid)).2 ≠ none →
      (run_with_db db (fun s => register_body s conc req oid uid)).1 = db) := by
  cases h1 : db.users.any (fun u => u.email == req.email) <;>
    by_cases h2 : req.email ∈ conc <;>
      simp [run_with_db, register_body, h1, h2]

/-- Witness for C5 at the failing-user-insert input: the pre-check passes,
the organization is inserted, the user flush hits a concurrently committed
duplicate email, and the committed store equals the original. -/
theorem registration_commits_both_rows_or_neither_witness :
    (run_with_db exDb9
      (fun s => register_body s ["new@x.com"] exReq5 "o5" "u5")).1 = exDb9 :=
  (registration_commits_both_rows_or_neither exDb9 ["new@x.com"] exReq5
    "o5" "u5").2 (by decide)

/-- C9 counterexample: with user a@x.com already registered, register aborts
with the HTTP 400 Bad Request error "Email already registered" — not the
409 status of the HTTP Conflict kind — leaving the store untouched. -/
theorem register_duplicate_email_uses_400_not_409 :
    run_with_db exDb9 (fun s => register_body s [] exReq9 "o2" "u2")
      = (exDb9, some emailAlreadyRegistered) ∧
    emailAlreadyRegistered.status_code = 400 ∧
    emailAlreadyRegistered.status_code ≠ 409 := by
  refine ⟨by decide, rfl, by decide⟩

/-- C9 (amended): for every registration request whose email already belongs
to an existing user in any organization, register fails with the HTTP 400
"Email already registered" error (Bad Request, rather than the 409 Conflict
status), the duplicate is detected by the pre-check before any mutation,
and the committed store is unchanged — no organization or user row is
persisted. -/
theorem register_duplicate_email_aborts_unchanged
    (db : DBState) (conc : List String) (req : RegisterRequest)
    (oid uid : String)
    (h : db.users.any (fun u => u.email == req.email) = true) :
    run_with_db db (fun s => register_body s conc req oid uid)
      = (db, some emailAlreadyRegistered) := by
  simp [run_with_db, register_body, h]

/-- Witness for the amended C9 theorem at the concrete duplicate email. -/
theorem register_duplicate_email_aborts_unchanged_witness :
    run_with_db exDb9 (fun s => register_body s [] exReq9 "o9b" "u9b")
      = (exDb9, some emailAlreadyRegistered) :=
  register_duplicate_email_aborts_unchanged exDb9 [] exReq9 "o9b" "u9b"
    (by decide)

/-- C6 (code bug): deleting a document whose blob deletion fails — the
storage service swallows the ClientError and returns False, and the router
ignores that return value — still removes the metadata row and reports
success: the operation neither fails nor leaves the document row in place,
contradicting the claim. -/
theorem delete_document_ignores_blob_failure :
    storage_delete_file false = false ∧
    delete_document exDb6 "org1" "d1" false
      = Except.ok ("Document deleted successfully", ⟨[], [], [], [], []⟩) :=
  ⟨rfl, rfl⟩

/-- C7: getOrganizationStats computes, over the full unfiltered dataset of
the organization: control totals and per-status counts of completed /
in_progress / not_started adoption records; task total, completed (status
done) and overdue (status not done and non-null due date before now)
counts; document total and expiring (non-null expiry at most now + 30
days) counts. -/
theorem organization_stats_full_dataset_counts
    (db : DBState) (orgId : String) (now : Int) :
    (get_organization_stats db orgId now).total_controls
      = (db.orgControls.filter (fun c => c.organization_id == orgId)).length ∧
    (get_organization_stats db orgId now).completed_controls
      = ((db.orgControls.filter (fun c => c.organization_id == orgId)).filter
          (fun c => decide (c.status = ControlStatus.completed))).length ∧
    (get_organization_stats db orgId now).in_progress_controls
      = ((db.orgControls.filter (fun c => c.organization_id == orgId)).filter
          (fun c => decide (c.status = ControlStatus.in_progress))).length ∧
    (get_organization_stats db orgId now).not_started_controls
      = ((db.orgControls.filter (fun c => c.organization_id == orgId)).filter
          (fun c => decide (c.status = ControlStatus.not_started))).length ∧
    (get_organization_stats db orgId now).total_tasks
      = (db.tasks.filter (fun t => t.organization_id == orgId)).length ∧
    (get_organization_stats db orgId now).completed_tasks
      = ((db.tasks.filter (fun t => t.organization_id == orgId)).filter
          (fun t => decide (t.status = TaskStatus.done))).length ∧
    (get_organization_stats db orgId now).overdue_tasks
      = ((db.tasks.filter (fun t => t.organization_id == orgId)).filter
          (fun t => decide (t.status ≠ TaskStatus.done)
            && sqlLt t.due_date now)).length ∧
    (get_organization_stats db orgId now).total_documents
      = (db.documents.filter (fun d => d.organization_id == orgId)).length ∧
    (get_organization_stats db orgId now).expiring_documents
      = ((db.documents.filter (fun d => d.organization_id == orgId)).filter
          (fun d => d.expires_at.isSome
            && sqlLe d.expires_at (now + 30 * minutesPerDay))).length := by
  refine ⟨rfl, ?_, ?_, ?_, rfl, ?_, ?_, rfl, ?_⟩
  · exact sumIf_eq_length_filter _ _
  · exact sumIf_eq_length_filter _ _
  · exact sumIf_eq_length_filter _ _
  · exact sumIf_eq_length_filter _ _
  · show (db.tasks.filter _).length = _
    rw [List.filter_filter]
    congr 1
    apply List.filter_congr
    intro x _
    cases hx1 : (x.organization_id == orgId) <;>
      cases hx2 : decide (x.status ≠ TaskStatus.done) <;>
        cases hx3 : sqlLt x.due_date now <;> rfl
  · show (db.documents.filter _).length = _
    rw [List.filter_filter]
    congr 1
    apply List.filter_congr
    intro x _
    cases hx1 : (x.organization_id == orgId) <;>
      cases hx2 : x.expires_at.isSome <;>
        cases hx3 : sqlLe x.expires_at (now + 30 * minutesPerDay) <;> rfl

theorem categoryGroup_category (ocs : List OrganizationControl)
    (cat : String) : (categoryGroup ocs cat).category = cat := rfl

theorem firstOccur_mem_iff (a : String) (l : List String) :
    a ∈ firstOccur l ↔ a ∈ l := by
  induction l using firstOccur.induct with
  | case1 => simp [firstOccur]
  | case2 c t ih =>
    rw [firstOccur]
    by_cases hac : a = c
    · subst hac; simp
    · simp [hac, ih, List.mem_filter]

theorem firstOccur_nodup (l : List String) : (firstOccur l).Nodup := by
  induction l using firstOccur.induct with
  | case1 => simp [firstOccur]
  | case2 c t ih =>
    rw [firstOccur, List.nodup_cons]
    refine ⟨?_, ih⟩
    rw [firstOccur_mem_iff]
    simp [List.mem_filter]

/-- The grouping pipeline of list_controls_by_category, specified over an
arbitrary adoption list: strictly sorted group keys, per-group membership
and counts, and coverage of every adoption record. -/
theorem grouping_spec (ocs : List OrganizationControl)
    (cats : List String) (sorted : List ControlCategoryResponse)
    (hcats : cats = firstOccur (ocs.map (fun c => c.control.category)))
    (hsorted : sorted = (cats.map (categoryGroup ocs)).mergeSort
      (fun a b => decide (a.category ≤ b.category))) :
    sorted.Pairwise (fun a b => a.category < b.category) ∧
    (∀ g ∈ sorted,
      g.controls = ocs.filter (fun c => c.control.category == g.category) ∧
      g.total = g.controls.length ∧
      g.completed = (g.controls.filter
        (fun c => decide (c.status = ControlStatus.completed))).length) ∧
    (∀ oc ∈ ocs, ∃ g ∈ sorted, g.category = oc.control.category) := by
  have hperm : sorted.Perm (cats.map (categoryGroup ocs)) := by
    rw [hsorted]
    exact List.mergeSort_perm _ _
  have hmapcat : (cats.map (categoryGroup ocs)).map
      (fun g => g.category) = cats := by
    rw [List.map_map]
    exact List.map_id cats
  have hnodupcats : cats.Nodup := by
    rw [hcats]
    exact firstOccur_nodup _
  have hnodupmap :
      ((cats.map (categoryGroup ocs)).map (fun g => g.category)).Nodup := by
    rw [hmapcat]
    exact hnodupcats
  have hnodupsorted : (sorted.map (fun g => g.category)).Nodup :=
    ((hperm.map (fun g => g.category)).nodup_iff).mpr hnodupmap
  have hpairne : sorted.Pairwise (fun a b => a.category ≠ b.category) :=
    List.pairwise_map.mp hnodupsorted
  have hpairle : sorted.Pairwise (fun a b => a.category ≤ b.category) := by
    have htrans : ∀ a b c : ControlCategoryResponse,
        decide (a.category ≤ b.category) = true →
        decide (b.category ≤ c.category) = true →
        decide (a.category ≤ c.category) = true := by
      intro a b c h1 h2
      rw [decide_eq_true_iff] at h1 h2 ⊢
      exact le_trans h1 h2
    have htot : ∀ a b : ControlCategoryResponse,
        (decide (a.category ≤ b.category)
          || decide (b.category ≤ a.category)) = true := by
      intro a b
      rcases le_total a.category b.category with h | h <;> simp [h]
    have hs := List.sorted_mergeSort htrans htot (cats.map (categoryGroup ocs))
    rw [← hsorted] at hs
    exact hs.imp (fun h => of_decide_eq_true h)
  refine ⟨(hpairle.and hpairne).imp (fun h => lt_of_le_of_ne h.1 h.2), ?_, ?_⟩
  · intro g hg
    obtain ⟨cat, hcat, rfl⟩ := List.mem_map.mp (hperm.mem_iff.mp hg)
    exact ⟨rfl, rfl, List.countP_eq_length_filter _ _⟩
  · intro oc hoc
    have hcm : oc.control.category ∈ cats := by
      rw [hcats, firstOccur_mem_iff]
      exact List.mem_map_of_mem _ hoc
    exact ⟨categoryGroup ocs oc.control.category,
      hperm.mem_iff.mpr (List.mem_map_of_mem _ hcm), rfl⟩

/-- C8: listByCategory groups the organization's full unfiltered adoption
set by category code: the groups come back strictly sorted ascending by
category code; each group's controls are exactly the organization's
adoption records carrying that category, its total is the number of those
member organization-controls, and its completed count is the number of
members whose status is completed; and every adoption record of the
organization falls into the group of its category. -/
theorem list_by_category_sorted_group_counts (db : DBState) (orgId : String) :
    (list_controls_by_category db orgId).Pairwise
      (fun a b => a.category < b.category) ∧
    (∀ g ∈ list_controls_by_category db orgId,
      g.controls = (db.orgControls.filter
          (fun c => c.organization_id == orgId)).filter
          (fun c => c.control.category == g.category) ∧
      g.total = g.controls.length ∧
      g.completed = (g.controls.filter
        (fun c => decide (c.status = ControlStatus.completed))).length) ∧
    (∀ oc ∈ db.orgControls.filter (fun c => c.organization_id == orgId),
      ∃ g ∈ list_controls_by_category db orgId,
        g.category = oc.control.category) :=
  grouping_spec (db.orgControls.filter (fun c => c.organization_id == orgId))
    _ _ rfl rfl

end IsoApi
